import Mathlib

/-!
Verification of the secure static server (`og.py`): certificate
provisioning, CORS/security header injection, SPA fallback, the
HTTP→HTTPS redirect handler, and the orchestrator's exit codes.
Machine-checked embedding of the relevant functions, followed by
theorems about the spec's testable properties.
-/

namespace SecureStaticServer

/-! ## Certificate data

A shallow model of the X.509 certificate content that the two
generation strategies request.  Times are measured in whole days
relative to an arbitrary epoch, so `now` is an integer and a validity
window is the pair `notBefore`/`notAfter`. -/

/-- The fields of a generated certificate that the spec talks about:
subject/issuer common name, validity window (in days relative to the
epoch), and the Subject Alternative Name entries. -/
structure Certificate where
  subjectCN : String
  issuerCN : String
  notBefore : Int
  notAfter : Int
  san : List String
  deriving DecidableEq, Repr

/-- Certificate built by `generate_self_signed_with_cryptography`
(og.py lines 85–120): subject and issuer `CN=localhost`,
`not_valid_before(now - timedelta(days=1))`,
`not_valid_after(now + timedelta(days=days))`, SAN extension listing
`localhost`, `127.0.0.1`, `::1`. -/
def generate_self_signed_with_cryptography_cert (now days : Int) : Certificate :=
  { subjectCN := "localhost"
    issuerCN := "localhost"
    notBefore := now - 1
    notAfter := now + days
    san := ["localhost", "127.0.0.1", "::1"] }

/-- Certificate requested by `generate_self_signed_with_openssl`
(og.py lines 141–173): the temporary config sets `CN = localhost` and
`alt_names` `localhost`, `127.0.0.1`, `::1`; the command line passes
only `-days str(days)` and no start date, and `openssl req -x509`
issues a certificate valid from the moment of issuance for exactly
`days` days, so the window is `[now, now + days]`. -/
def generate_self_signed_with_openssl_cert (now days : Int) : Certificate :=
  { subjectCN := "localhost"
    issuerCN := "localhost"
    notBefore := now
    notAfter := now + days
    san := ["localhost", "127.0.0.1", "::1"] }

/-! ## Certificate provisioning

`ensure_certificate` (og.py lines 186–203) is modelled as a function
over an explicit filesystem state (the set of existing file paths,
kept as a list) and an environment recording which generation
strategies can succeed.  The result carries the final filesystem, the
strategies that were attempted (in order), and how many generation
events actually wrote a certificate. -/

/-- Environment for the generation strategies: whether the
`cryptography` package imports successfully, whether the `openssl`
binary is on `PATH`, and whether its invocation exits 0. -/
structure GenEnv where
  cryptographyUsable : Bool
  opensslOnPath : Bool
  opensslSucceeds : Bool
  deriving DecidableEq, Repr

/-- A generation strategy, in the order `ensure_certificate` tries them. -/
inductive Strategy
  | cryptography
  | openssl
  deriving DecidableEq, Repr

/-- `generate_self_signed_with_cryptography` as a state transformer:
returns whether it succeeded and the resulting filesystem.  On success
(the import worked) it writes both the key and the certificate files
(og.py lines 128–129); when `cryptography` is not usable it returns
`False` without touching the filesystem (lines 80–82). -/
def generate_self_signed_with_cryptography (env : GenEnv) (fs : List String)
    (certPath keyPath : String) : Bool × List String :=
  if env.cryptographyUsable then (true, certPath :: keyPath :: fs) else (false, fs)

/-- `generate_self_signed_with_openssl` as a state transformer: returns
`False` when `openssl` is not on `PATH` (og.py lines 137–138); on a
`CalledProcessError` the error is logged and `False` returned (lines
179–181); on success both files are written. -/
def generate_self_signed_with_openssl (env : GenEnv) (fs : List String)
    (certPath keyPath : String) : Bool × List String :=
  if env.opensslOnPath then
    if env.opensslSucceeds then (true, certPath :: keyPath :: fs) else (false, fs)
  else (false, fs)

/-- The message of the `RuntimeError` raised when both strategies fail
(og.py lines 199–203). -/
def provisioning_error_message : String :=
  "Unable to generate self-signed certificate. Please install either:\n" ++
  "  - Python package cryptography (pip install cryptography)\n" ++
  "  - or OpenSSL CLI (https://www.openssl.org/)\n"

/-- `cert_dir / f"{cert_name}.cert.pem"` (og.py line 188). -/
def cert_file_path (certDir certName : String) : String :=
  certDir ++ "/" ++ certName ++ ".cert.pem"

/-- `cert_dir / f"{cert_name}.key.pem"` (og.py line 189). -/
def key_file_path (certDir certName : String) : String :=
  certDir ++ "/" ++ certName ++ ".key.pem"

deriving instance DecidableEq for Except

/-- Result of `ensure_certificate`: the returned pair of paths or the
raised error, the filesystem afterwards, the strategies attempted in
order, and the number of generation events that wrote files. -/
structure ProvisionResult where
  outcome : Except String (String × String)
  fs : List String
  attempts : List Strategy
  generations : Nat
  deriving DecidableEq, Repr

/-- `ensure_certificate` (og.py lines 186–203): compute the two paths;
if both files exist return them unchanged; otherwise try the
`cryptography` strategy, then the `openssl` strategy; if neither
succeeds raise the provisioning error. -/
def ensure_certificate (env : GenEnv) (fs : List String)
    (certDir certName : String) (days : Nat) : ProvisionResult :=
  let certPath := cert_file_path certDir certName
  let keyPath := key_file_path certDir certName
  if certPath ∈ fs ∧ keyPath ∈ fs then
    { outcome := .ok (certPath, keyPath), fs := fs, attempts := [], generations := 0 }
  else
    match generate_self_signed_with_cryptography env fs certPath keyPath with
    | (true, fs1) =>
        { outcome := .ok (certPath, keyPath), fs := fs1
          attempts := [.cryptography], generations := 1 }
    | (false, fs1) =>
        match generate_self_signed_with_openssl env fs1 certPath keyPath with
        | (true, fs2) =>
            { outcome := .ok (certPath, keyPath), fs := fs2
              attempts := [.cryptography, .openssl], generations := 1 }
        | (false, fs2) =>
            { outcome := .error provisioning_error_message, fs := fs2
              attempts := [.cryptography, .openssl], generations := 0 }

/-! ## Request handling

The per-request logic of `CORSRequestHandler` (og.py lines 218–270) and
`RedirectToHTTPS` (lines 274–284).  Configuration attributes that the
bootstrap code attaches to the server instance become a `ServerConfig`
record; the request headers the handlers read become a
`RequestHeaders` record; a response is its status code, the headers
the handler emits, and the body. -/

/-- The per-server settings attached by `create_https_server`
(og.py lines 298–303), read by the handler via `getattr`. -/
structure ServerConfig where
  cors_allow_origin : String
  cors_allow_credentials : Bool
  spa_fallback : Bool
  set_coep : Bool
  set_coop : Bool
  set_corp : Bool
  deriving DecidableEq, Repr

/-- The request headers `CORSRequestHandler` reads: `Origin` and
`Access-Control-Request-Headers`; `none` models an absent header. -/
structure RequestHeaders where
  origin : Option String
  access_control_request_headers : Option String
  deriving DecidableEq, Repr

/-- An HTTP response as the handler produces it: status code, the
headers the handler emits, and the body. -/
structure Response where
  status : Nat
  headers : List (String × String)
  body : String
  deriving DecidableEq, Repr

/-- Helper for `split_commas`: walk the characters, cutting a piece at
every comma (the accumulator holds the current piece reversed). -/
def split_commas_aux : List Char → List Char → List String
  | [], acc => [String.mk acc.reverse]
  | c :: cs, acc =>
      if c = ',' then String.mk acc.reverse :: split_commas_aux cs []
      else split_commas_aux cs (c :: acc)

/-- Python's `allow.split(",")`: split on every comma, keeping empty
pieces.  Structural recursion so that concrete policies compute. -/
def split_commas (s : String) : List String :=
  split_commas_aux s.data []

/-- The whitespace characters Python's `str.strip()` removes (ASCII
subset). -/
def py_is_space (c : Char) : Bool :=
  c = ' ' || c = '\t' || c = '\n' || c = '\r' || c = '\x0b' || c = '\x0c'

/-- Python's `o.strip()`: drop leading and trailing whitespace. -/
def py_strip (s : String) : String :=
  String.mk (((s.data.dropWhile py_is_space).reverse.dropWhile py_is_space).reverse)

/-- `allowed = [o.strip() for o in allow.split(",") if o.strip()]`
(og.py line 233). -/
def parse_allowed (allow : String) : List String :=
  ((split_commas allow).map py_strip).filter (fun o => !o.isEmpty)

/-- `req_headers or "*"` (og.py line 239): Python treats both `None`
and the empty string as falsy. -/
def allow_headers_value (reqHeaders : Option String) : String :=
  match reqHeaders with
  | none => "*"
  | some rh => if rh.isEmpty then "*" else rh

/-- `CORSRequestHandler._send_cors_headers` (og.py lines 225–241) as
the list of headers it sends, in order. -/
def _send_cors_headers (cfg : ServerConfig) (h : RequestHeaders) : List (String × String) :=
  (if cfg.cors_allow_origin = "*" then
    [("Access-Control-Allow-Origin", "*")]
  else
    match h.origin with
    | some o =>
        if o ∈ parse_allowed cfg.cors_allow_origin then
          [("Access-Control-Allow-Origin", o), ("Vary", "Origin")]
        else []
    | none => [])
  ++ [("Access-Control-Allow-Methods", "GET, POST, PUT, PATCH, DELETE, OPTIONS, HEAD")]
  ++ [("Access-Control-Allow-Headers", allow_headers_value h.access_control_request_headers)]
  ++ (if cfg.cors_allow_credentials then [("Access-Control-Allow-Credentials", "true")] else [])

/-- `CORSRequestHandler._send_security_headers` (og.py lines 243–252). -/
def _send_security_headers (cfg : ServerConfig) : List (String × String) :=
  (if cfg.set_coep then [("Cross-Origin-Embedder-Policy", "require-corp")] else [])
  ++ (if cfg.set_coop then [("Cross-Origin-Opener-Policy", "same-origin")] else [])
  ++ (if cfg.set_corp then [("Cross-Origin-Resource-Policy", "same-origin")] else [])
  ++ [("X-Content-Type-Options", "nosniff"),
      ("Referrer-Policy", "no-referrer-when-downgrade")]

/-- `CORSRequestHandler.end_headers` (og.py lines 254–257): every
response's headers pass through here, so these headers are attached to
every response the handler produces. -/
def end_headers (cfg : ServerConfig) (h : RequestHeaders) : List (String × String) :=
  _send_cors_headers cfg h ++ _send_security_headers cfg

/-- `CORSRequestHandler.do_OPTIONS` (og.py lines 259–261):
`send_response(HTTPStatus.NO_CONTENT)` (204) followed by
`end_headers()`, no body. -/
def do_OPTIONS (cfg : ServerConfig) (h : RequestHeaders) : Response :=
  { status := 204, headers := end_headers cfg h, body := "" }

/-- The filesystem under the served root, as an association list from
request path to file content. -/
def SiteFiles := List (String × String)

/-- The base `SimpleHTTPRequestHandler.do_GET` behaviour over the
modelled filesystem: serve the file at the (translated) path with
status 200, or reply 404 when it does not exist; either way the
headers flow through the overridden `end_headers`. -/
def simple_do_GET (fs : SiteFiles) (cfg : ServerConfig) (h : RequestHeaders)
    (path : String) : Response :=
  match List.lookup path fs with
  | some content => { status := 200, headers := end_headers cfg h, body := content }
  | none => { status := 404, headers := end_headers cfg h, body := "" }

/-- `CORSRequestHandler.do_GET` (og.py lines 263–270): when SPA
fallback is on, the requested path resolves to no existing file and is
not under `/.well-known/`, rewrite `self.path` to `/index.html`
before delegating to the base class. -/
def do_GET (fs : SiteFiles) (cfg : ServerConfig) (h : RequestHeaders)
    (path : String) : Response :=
  let path :=
    if cfg.spa_fallback ∧ (List.lookup path fs) = none ∧ ¬ path.startsWith "/.well-known/"
    then "/index.html" else path
  simple_do_GET fs cfg h path

/-! ## HTTP→HTTPS redirect handler -/

/-- The host rewrite in `RedirectToHTTPS.do_GET` (og.py lines
279–280): `if ":" in host: host = host.split(":")[0]`.  Python's
`split(":")[0]` is the prefix of the string before its first colon,
embedded here as `takeWhile`. -/
def redirect_host (host : String) : String :=
  if host.data.contains ':' then String.mk (host.data.takeWhile (fun c => c != ':')) else host

/-- `RedirectToHTTPS.do_GET` (og.py lines 275–284): read the `Host`
header (defaulting to the empty string), strip everything from the
first colon, and send `307 Temporary Redirect` with
`Location: https://{host}:{https_port}{self.path}`; `self.path`
carries the original path and query string. -/
def RedirectToHTTPS.do_GET (https_port : Nat) (hostHeader : Option String)
    (path : String) : Response :=
  let host := redirect_host (hostHeader.getD "")
  { status := 307
    headers := [("Location", "https://" ++ host ++ ":" ++ toString https_port ++ path)]
    body := "" }

/-! ## Orchestrator

`main` (og.py lines 322–429) modelled as a pure decision function.
The checks happen in source order: root-directory validation, then
certificate provisioning, then generate-only early exit, then the
HTTPS bind.  The `steps` list records which stages actually ran, so
"exits before the later steps run" is visible in the result. -/

/-- The externally observable stages of `main`, in source order. -/
inductive MainStep
  | provisionedCert
  | printedCertPaths
  | boundHTTPS
  | startedListeners
  deriving DecidableEq, Repr

/-- The outcome of a `main` run: the process exit code and the stages
that executed before exiting. -/
structure MainOutcome where
  exitCode : Nat
  steps : List MainStep
  deriving DecidableEq, Repr

/-- `main` (og.py lines 352–378, plus the serve loop): exit 2 when the
resolved root does not exist or is not a directory; exit 3 when
`ensure_certificate` raises; exit 0 after printing the paths in
generate-only mode; exit 4 when binding the HTTPS listener raises
`OSError`; otherwise start the listeners and finish with exit 0. -/
def main (rootExists rootIsDir : Bool) (env : GenEnv) (fs : List String)
    (certDir certName : String) (days : Nat)
    (generateOnly : Bool) (httpsBindOk : Bool) : MainOutcome :=
  if !rootExists || !rootIsDir then
    { exitCode := 2, steps := [] }
  else
    match (ensure_certificate env fs certDir certName days).outcome with
    | .error _ => { exitCode := 3, steps := [] }
    | .ok _ =>
        if generateOnly then
          { exitCode := 0, steps := [.provisionedCert, .printedCertPaths] }
        else if !httpsBindOk then
          { exitCode := 4, steps := [.provisionedCert] }
        else
          { exitCode := 0, steps := [.provisionedCert, .boundHTTPS, .startedListeners] }

/-! ## Theorems -/

/-- **C1.** `ensure_certificate` is idempotent: when both the
certificate and the key file already exist at the computed paths
`<cert-dir>/<cert-name>.cert.pem` and `<cert-dir>/<cert-name>.key.pem`
it returns exactly those paths with the filesystem untouched, no
strategy attempted and no generation performed; and on a fresh
directory (neither file present), a first call that succeeds performs
exactly one generation, while a second call returns the same paths
with the filesystem unchanged and generation count zero. -/
theorem ensure_certificate_idempotent (env : GenEnv) (fs : List String)
    (certDir certName : String) (days : Nat) :
    (cert_file_path certDir certName ∈ fs → key_file_path certDir certName ∈ fs →
      ensure_certificate env fs certDir certName days =
        { outcome := .ok (cert_file_path certDir certName, key_file_path certDir certName),
          fs := fs, attempts := [], generations := 0 }) ∧
    (cert_file_path certDir certName ∉ fs → key_file_path certDir certName ∉ fs →
      ∀ p, (ensure_certificate env fs certDir certName days).outcome = .ok p →
        p = (cert_file_path certDir certName, key_file_path certDir certName) ∧
        (ensure_certificate env fs certDir certName days).generations = 1 ∧
        ensure_certificate env (ensure_certificate env fs certDir certName days).fs
            certDir certName days =
          { outcome := .ok p,
            fs := (ensure_certificate env fs certDir certName days).fs,
            attempts := [], generations := 0 }) := by
  refine ⟨fun h1 h2 => ?_, fun h1 _h2 p hp => ?_⟩
  · simp [ensure_certificate, h1, h2]
  · have hboth : ¬ (cert_file_path certDir certName ∈ fs ∧
        key_file_path certDir certName ∈ fs) := fun hc => h1 hc.1
    cases hc : env.cryptographyUsable with
    | true =>
        simp [ensure_certificate, hboth, generate_self_signed_with_cryptography, hc] at hp ⊢
        subst hp
        simp
    | false =>
        cases ho : env.opensslOnPath with
        | false =>
            simp [ensure_certificate, hboth, generate_self_signed_with_cryptography,
              generate_self_signed_with_openssl, hc, ho] at hp
        | true =>
            cases hs : env.opensslSucceeds with
            | false =>
                simp [ensure_certificate, hboth, generate_self_signed_with_cryptography,
                  generate_self_signed_with_openssl, hc, ho, hs] at hp
            | true =>
                simp [ensure_certificate, hboth, generate_self_signed_with_cryptography,
                  generate_self_signed_with_openssl, hc, ho, hs] at hp ⊢
                subst hp
                simp

/-- Concrete run of the C1 theorem: a fresh directory, the
`cryptography` strategy available; the first call generates once and
the second call returns the same paths without regenerating. -/
theorem ensure_certificate_idempotent_witness :
    ("d/localhost.cert.pem", "d/localhost.key.pem") =
      (cert_file_path "d" "localhost", key_file_path "d" "localhost") ∧
    (ensure_certificate ⟨true, false, false⟩ [] "d" "localhost" 825).generations = 1 ∧
    ensure_certificate ⟨true, false, false⟩
        (ensure_certificate ⟨true, false, false⟩ [] "d" "localhost" 825).fs
        "d" "localhost" 825 =
      { outcome := .ok ("d/localhost.cert.pem", "d/localhost.key.pem"),
        fs := (ensure_certificate ⟨true, false, false⟩ [] "d" "localhost" 825).fs,
        attempts := [], generations := 0 } :=
  (ensure_certificate_idempotent ⟨true, false, false⟩ [] "d" "localhost" 825).2
    (by decide) (by decide) ("d/localhost.cert.pem", "d/localhost.key.pem") (by decide)

/-- **C2 counterexample.** The claim's validity window, "(now − 1 day)
to (now + validityDays)" with span validityDays + 1, fails for the
external-tool strategy: at now = 0 and validityDays = 825, the openssl
invocation (which passes only `-days 825`) yields a certificate whose
window starts at 0, not −1, and spans 825 days, not 826. -/
theorem openssl_validity_counterexample :
    ¬ ((generate_self_signed_with_openssl_cert 0 825).notBefore = 0 - 1 ∧
       (generate_self_signed_with_openssl_cert 0 825).notAfter -
         (generate_self_signed_with_openssl_cert 0 825).notBefore = 825 + 1) := by
  decide

/-- **C2 (amended).** Both generation strategies request SAN set
`{localhost, 127.0.0.1, ::1}`.  The native-library strategy's validity
window runs from now − 1 day to now + validityDays, so notAfter −
notBefore = validityDays + 1; the external-tool strategy's window runs
from now to now + validityDays, so notAfter − notBefore =
validityDays. -/
theorem generated_certificate_san_and_validity (now days : Int) :
    ((generate_self_signed_with_cryptography_cert now days).san.toFinset =
       ({"localhost", "127.0.0.1", "::1"} : Finset String)) ∧
    (generate_self_signed_with_cryptography_cert now days).notBefore = now - 1 ∧
    (generate_self_signed_with_cryptography_cert now days).notAfter = now + days ∧
    (generate_self_signed_with_cryptography_cert now days).notAfter -
      (generate_self_signed_with_cryptography_cert now days).notBefore = days + 1 ∧
    ((generate_self_signed_with_openssl_cert now days).san.toFinset =
       ({"localhost", "127.0.0.1", "::1"} : Finset String)) ∧
    (generate_self_signed_with_openssl_cert now days).notBefore = now ∧
    (generate_self_signed_with_openssl_cert now days).notAfter = now + days ∧
    (generate_self_signed_with_openssl_cert now days).notAfter -
      (generate_self_signed_with_openssl_cert now days).notBefore = days := by
  refine ⟨?_, rfl, rfl, ?_, ?_, rfl, rfl, ?_⟩
  · show (["localhost", "127.0.0.1", "::1"] : List String).toFinset = _
    decide
  · show (now + days) - (now - 1) = days + 1
    omega
  · show (["localhost", "127.0.0.1", "::1"] : List String).toFinset = _
    decide
  · show (now + days) - now = days
    omega

/-- Every branch of `do_GET` attaches exactly the `end_headers`
header list. -/
theorem do_GET_headers_eq (fs : SiteFiles) (cfg : ServerConfig)
    (h : RequestHeaders) (path : String) :
    (do_GET fs cfg h path).headers = end_headers cfg h := by
  unfold do_GET simple_do_GET
  split <;> (dsimp only; split <;> rfl)

/-- The status of `do_GET` does not depend on the request headers. -/
theorem do_GET_status_eq (fs : SiteFiles) (cfg : ServerConfig)
    (h h' : RequestHeaders) (path : String) :
    (do_GET fs cfg h path).status = (do_GET fs cfg h' path).status := by
  unfold do_GET simple_do_GET
  split <;> (dsimp only; split <;> rfl)

/-- Under the wildcard policy, `end_headers` contains the
`Access-Control-Allow-Origin: *` header. -/
theorem end_headers_wildcard_mem (cfg : ServerConfig) (h : RequestHeaders)
    (hw : cfg.cors_allow_origin = "*") :
    ("Access-Control-Allow-Origin", "*") ∈ end_headers cfg h := by
  simp [end_headers, _send_cors_headers, hw]

/-- Under the wildcard policy, `end_headers` never contains a `Vary`
header. -/
theorem end_headers_wildcard_no_vary (cfg : ServerConfig) (h : RequestHeaders)
    (hw : cfg.cors_allow_origin = "*") (v : String) :
    ("Vary", v) ∉ end_headers cfg h := by
  simp only [end_headers, _send_cors_headers, _send_security_headers, hw, if_true,
    List.mem_append, List.mem_cons, List.mem_singleton]
  split_ifs <;> simp_all

/-- **C3.** With the wildcard origin policy, every response the
handler produces — any method (`GET` to any path with any filesystem,
and `OPTIONS`), any request headers, any resulting status — carries
`Access-Control-Allow-Origin: *` and never carries a `Vary` header. -/
theorem wildcard_policy_headers (fs : SiteFiles) (cfg : ServerConfig)
    (h : RequestHeaders) (path : String)
    (hw : cfg.cors_allow_origin = "*") :
    (("Access-Control-Allow-Origin", "*") ∈ (do_GET fs cfg h path).headers ∧
      ∀ v, ("Vary", v) ∉ (do_GET fs cfg h path).headers) ∧
    (("Access-Control-Allow-Origin", "*") ∈ (do_OPTIONS cfg h).headers ∧
      ∀ v, ("Vary", v) ∉ (do_OPTIONS cfg h).headers) := by
  rw [do_GET_headers_eq]
  exact ⟨⟨end_headers_wildcard_mem cfg h hw, fun v => end_headers_wildcard_no_vary cfg h hw v⟩,
    ⟨end_headers_wildcard_mem cfg h hw, fun v => end_headers_wildcard_no_vary cfg h hw v⟩⟩

/-- Concrete run of the C3 theorem: wildcard policy, a request that
does send an `Origin` header, a 404 path; the response still has the
wildcard grant and no `Vary`. -/
theorem wildcard_policy_headers_witness :
    ("Access-Control-Allow-Origin", "*") ∈
      (do_GET [] ⟨"*", false, false, false, false, false⟩
        ⟨some "https://evil.example", none⟩ "/missing").headers ∧
    ("Vary", "Origin") ∉
      (do_GET [] ⟨"*", false, false, false, false, false⟩
        ⟨some "https://evil.example", none⟩ "/missing").headers :=
  ⟨((wildcard_policy_headers [] ⟨"*", false, false, false, false, false⟩
      ⟨some "https://evil.example", none⟩ "/missing" rfl).1).1,
   ((wildcard_policy_headers [] ⟨"*", false, false, false, false, false⟩
      ⟨some "https://evil.example", none⟩ "/missing" rfl).1).2 "Origin"⟩

/-- Under an allow-list policy, a request whose `Origin` is in the
parsed list gets the echo and `Vary: Origin`. -/
theorem end_headers_allowlist_granted (cfg : ServerConfig) (h : RequestHeaders)
    (hw : cfg.cors_allow_origin ≠ "*") (o : String) (ho : h.origin = some o)
    (hin : o ∈ parse_allowed cfg.cors_allow_origin) :
    ("Access-Control-Allow-Origin", o) ∈ end_headers cfg h ∧
    ("Vary", "Origin") ∈ end_headers cfg h := by
  constructor <;> simp [end_headers, _send_cors_headers, hw, ho, hin]

/-- Under an allow-list policy, a request whose `Origin` is absent or
not in the parsed list gets no `Access-Control-Allow-Origin` header. -/
theorem end_headers_allowlist_denied (cfg : ServerConfig) (h : RequestHeaders)
    (hw : cfg.cors_allow_origin ≠ "*")
    (hng : h.origin = none ∨
      ∀ o, h.origin = some o → o ∉ parse_allowed cfg.cors_allow_origin)
    (v : String) :
    ("Access-Control-Allow-Origin", v) ∉ end_headers cfg h := by
  have hcors : _send_cors_headers cfg h =
      [("Access-Control-Allow-Methods", "GET, POST, PUT, PATCH, DELETE, OPTIONS, HEAD"),
       ("Access-Control-Allow-Headers", allow_headers_value h.access_control_request_headers)]
      ++ (if cfg.cors_allow_credentials then
            [("Access-Control-Allow-Credentials", "true")] else []) := by
    rcases hng with hn | hnm
    · simp [_send_cors_headers, hw, hn]
    · cases ho : h.origin with
      | none => simp [_send_cors_headers, hw, ho]
      | some o => simp [_send_cors_headers, hw, ho, hnm o ho]
  simp only [end_headers, hcors, _send_security_headers, List.mem_append, List.mem_cons,
    List.mem_singleton]
  split_ifs <;> simp_all

/-- **C4.** With a comma-separated allow-list policy: a request whose
`Origin` value is in the parsed list gets that value echoed in
`Access-Control-Allow-Origin` together with `Vary: Origin`; a request
whose `Origin` is absent or not in the list gets no
`Access-Control-Allow-Origin` header at all; and in every case the
request is still served normally — the response status is exactly what
it would be with no `Origin` header. -/
theorem allow_list_policy (fs : SiteFiles) (cfg : ServerConfig)
    (h : RequestHeaders) (path : String)
    (hw : cfg.cors_allow_origin ≠ "*") :
    (∀ o, h.origin = some o → o ∈ parse_allowed cfg.cors_allow_origin →
      ("Access-Control-Allow-Origin", o) ∈ (do_GET fs cfg h path).headers ∧
      ("Vary", "Origin") ∈ (do_GET fs cfg h path).headers) ∧
    ((h.origin = none ∨
        ∀ o, h.origin = some o → o ∉ parse_allowed cfg.cors_allow_origin) →
      ∀ v, ("Access-Control-Allow-Origin", v) ∉ (do_GET fs cfg h path).headers) ∧
    (do_GET fs cfg h path).status =
      (do_GET fs cfg ⟨none, h.access_control_request_headers⟩ path).status := by
  rw [do_GET_headers_eq]
  exact ⟨fun o ho hin => end_headers_allowlist_granted cfg h hw o ho hin,
    fun hng v => end_headers_allowlist_denied cfg h hw hng v,
    do_GET_status_eq fs cfg h ⟨none, h.access_control_request_headers⟩ path⟩

/-- Concrete run of the C4 theorem, on the spec's own example: policy
`https://a.example,https://b.example`; `Origin: https://a.example` is
echoed with `Vary: Origin`, while `Origin: https://c.example` gets no
`Access-Control-Allow-Origin` header. -/
theorem allow_list_policy_witness :
    ("Access-Control-Allow-Origin", "https://a.example") ∈
      (do_GET [] ⟨"https://a.example,https://b.example", false, false, false, false, false⟩
        ⟨some "https://a.example", none⟩ "/").headers ∧
    ("Vary", "Origin") ∈
      (do_GET [] ⟨"https://a.example,https://b.example", false, false, false, false, false⟩
        ⟨some "https://a.example", none⟩ "/").headers ∧
    ("Access-Control-Allow-Origin", "https://c.example") ∉
      (do_GET [] ⟨"https://a.example,https://b.example", false, false, false, false, false⟩
        ⟨some "https://c.example", none⟩ "/").headers := by
  refine ⟨((allow_list_policy [] _ ⟨some "https://a.example", none⟩ "/"
      (by decide)).1 "https://a.example" rfl (by decide)).1,
    ((allow_list_policy [] _ ⟨some "https://a.example", none⟩ "/"
      (by decide)).1 "https://a.example" rfl (by decide)).2,
    (allow_list_policy [] _ ⟨some "https://c.example", none⟩ "/"
      (by decide)).2.1 (Or.inr ?_) "https://c.example"⟩
  intro o ho
  simp only [Option.some.injEq] at ho
  subst ho
  decide

/-- **C5.** Every `OPTIONS` request, to any path and with any request
headers, yields status 204, an empty body, and the full CORS header
set: `Access-Control-Allow-Origin` per policy, the fixed
`Access-Control-Allow-Methods` list, `Access-Control-Allow-Headers`
echoing the client's non-empty requested headers (else `*`), and
`Access-Control-Allow-Credentials: true` exactly when credentials are
enabled. -/
theorem options_preflight (cfg : ServerConfig) (h : RequestHeaders) :
    (do_OPTIONS cfg h).status = 204 ∧
    (do_OPTIONS cfg h).body = "" ∧
    ("Access-Control-Allow-Methods", "GET, POST, PUT, PATCH, DELETE, OPTIONS, HEAD")
      ∈ (do_OPTIONS cfg h).headers ∧
    ("Access-Control-Allow-Headers", allow_headers_value h.access_control_request_headers)
      ∈ (do_OPTIONS cfg h).headers ∧
    (∀ rh, h.access_control_request_headers = some rh → rh.isEmpty = false →
      allow_headers_value h.access_control_request_headers = rh) ∧
    (h.access_control_request_headers = none →
      allow_headers_value h.access_control_request_headers = "*") ∧
    (cfg.cors_allow_credentials = true →
      ("Access-Control-Allow-Credentials", "true") ∈ (do_OPTIONS cfg h).headers) ∧
    (cfg.cors_allow_origin = "*" →
      ("Access-Control-Allow-Origin", "*") ∈ (do_OPTIONS cfg h).headers) ∧
    (∀ o, cfg.cors_allow_origin ≠ "*" → h.origin = some o →
      o ∈ parse_allowed cfg.cors_allow_origin →
      ("Access-Control-Allow-Origin", o) ∈ (do_OPTIONS cfg h).headers) := by
  refine ⟨rfl, rfl, ?_, ?_, ?_, ?_, ?_, ?_, ?_⟩
  · simp [do_OPTIONS, end_headers, _send_cors_headers]
  · simp [do_OPTIONS, end_headers, _send_cors_headers]
  · intro rh hrh hne
    simp [allow_headers_value, hrh, hne]
  · intro hn
    simp [allow_headers_value, hn]
  · intro hc
    simp [do_OPTIONS, end_headers, _send_cors_headers, hc]
  · intro hw
    simp [do_OPTIONS, end_headers, _send_cors_headers, hw]
  · intro o hw ho hin
    simp [do_OPTIONS, end_headers, _send_cors_headers, hw, ho, hin]

/-- Concrete run of the C5 theorem: wildcard policy with credentials
enabled and a preflight that requests `X-Custom` headers. -/
theorem options_preflight_witness :
    (do_OPTIONS ⟨"*", true, false, false, false, false⟩
       ⟨some "https://a.example", some "X-Custom"⟩).status = 204 ∧
    (do_OPTIONS ⟨"*", true, false, false, false, false⟩
       ⟨some "https://a.example", some "X-Custom"⟩).body = "" ∧
    allow_headers_value (some "X-Custom") = "X-Custom" ∧
    ("Access-Control-Allow-Credentials", "true") ∈
      (do_OPTIONS ⟨"*", true, false, false, false, false⟩
        ⟨some "https://a.example", some "X-Custom"⟩).headers ∧
    ("Access-Control-Allow-Origin", "*") ∈
      (do_OPTIONS ⟨"*", true, false, false, false, false⟩
        ⟨some "https://a.example", some "X-Custom"⟩).headers :=
  ⟨(options_preflight _ ⟨some "https://a.example", some "X-Custom"⟩).1,
   (options_preflight _ ⟨some "https://a.example", some "X-Custom"⟩).2.1,
   (options_preflight ⟨"*", true, false, false, false, false⟩
      ⟨some "https://a.example", some "X-Custom"⟩).2.2.2.2.1 "X-Custom" rfl (by decide),
   (options_preflight _ ⟨some "https://a.example", some "X-Custom"⟩).2.2.2.2.2.2.1 rfl,
   (options_preflight _ ⟨some "https://a.example", some "X-Custom"⟩).2.2.2.2.2.2.2.1 rfl⟩

/-- **C6.** For a `GET` whose path resolves to no existing file and is
not under `/.well-known/`: with SPA fallback enabled the served path
is rewritten to the root index document and the response is 200 with
the index content; with SPA fallback disabled the identical request
yields 404. -/
theorem spa_fallback_behaviour (fs : SiteFiles) (cfg : ServerConfig)
    (h : RequestHeaders) (path : String)
    (hmiss : List.lookup path fs = none)
    (hwk : path.startsWith "/.well-known/" = false) :
    (∀ idx, List.lookup "/index.html" fs = some idx →
      cfg.spa_fallback = true →
      do_GET fs cfg h path =
        { status := 200, headers := end_headers cfg h, body := idx }) ∧
    (cfg.spa_fallback = false → (do_GET fs cfg h path).status = 404) := by
  constructor
  · intro idx hidx hspa
    simp [do_GET, simple_do_GET, hmiss, hwk, hspa, hidx]
  · intro hspa
    simp [do_GET, simple_do_GET, hmiss, hwk, hspa]

/-- Concrete run of the C6 theorem: a one-file site holding only the
index document; `GET /nonexistent` returns the index with 200 when SPA
fallback is on, and 404 when it is off. -/
theorem spa_fallback_behaviour_witness :
    do_GET [("/index.html", "INDEX")] ⟨"*", false, true, false, false, false⟩
        ⟨none, none⟩ "/nonexistent" =
      { status := 200,
        headers := end_headers ⟨"*", false, true, false, false, false⟩ ⟨none, none⟩,
        body := "INDEX" } ∧
    (do_GET [("/index.html", "INDEX")] ⟨"*", false, false, false, false, false⟩
        ⟨none, none⟩ "/nonexistent").status = 404 :=
  ⟨(spa_fallback_behaviour [("/index.html", "INDEX")]
      ⟨"*", false, true, false, false, false⟩ ⟨none, none⟩ "/nonexistent"
      (by decide) (by decide)).1 "INDEX" (by decide) rfl,
   (spa_fallback_behaviour [("/index.html", "INDEX")]
      ⟨"*", false, false, false, false, false⟩ ⟨none, none⟩ "/nonexistent"
      (by decide) (by decide)).2 rfl⟩

/-- `takeWhile` up to the first colon recovers the colon-free prefix. -/
theorem takeWhile_append_colon (l r : List Char) (hl : ':' ∉ l) :
    (l ++ ':' :: r).takeWhile (fun c => c != ':') = l := by
  induction l with
  | nil => simp
  | cons c cs ih =>
      simp only [List.mem_cons, not_or] at hl
      have hc : (c != ':') = true := by simpa using Ne.symm hl.1
      simp [List.takeWhile, hc, ih hl.2]

/-- `redirect_host` on a host of the form `<name>:<port-suffix>` (with
a colon-free name) strips everything from the colon. -/
theorem redirect_host_strips_port (name rest : String) (hname : ':' ∉ name.data) :
    redirect_host (name ++ ":" ++ rest) = name := by
  have hdata : (name ++ ":" ++ rest).data = name.data ++ ':' :: rest.data := by
    simp [String.data_append]
  have hcon : (name.data ++ ':' :: rest.data).contains ':' = true := by
    simp [List.elem_iff]
  simp only [redirect_host, hdata, hcon, if_true]
  rw [takeWhile_append_colon name.data rest.data hname]

/-- `redirect_host` leaves a colon-free host unchanged. -/
theorem redirect_host_no_colon (host : String) (h : ':' ∉ host.data) :
    redirect_host host = host := by
  have hc : host.data.contains ':' = false := by simpa [List.elem_iff] using h
  unfold redirect_host
  rw [hc]
  simp

/-- **C7.** Every `GET` to the redirect listener yields status 307 and
a `Location` of `https://<host>:<httpsPort><original-path-and-query>`,
where `<host>` is the request's `Host` header value with any port
suffix stripped: a host `<name>:<suffix>` becomes `<name>`, and a host
with no port suffix is used as is. -/
theorem redirect_response (https_port : Nat) (host path : String) :
    (RedirectToHTTPS.do_GET https_port (some host) path).status = 307 ∧
    (RedirectToHTTPS.do_GET https_port (some host) path).body = "" ∧
    (∀ name rest, host = name ++ ":" ++ rest → ':' ∉ name.data →
      (RedirectToHTTPS.do_GET https_port (some host) path).headers =
        [("Location", "https://" ++ name ++ ":" ++ toString https_port ++ path)]) ∧
    (':' ∉ host.data →
      (RedirectToHTTPS.do_GET https_port (some host) path).headers =
        [("Location", "https://" ++ host ++ ":" ++ toString https_port ++ path)]) := by
  refine ⟨rfl, rfl, ?_, ?_⟩
  · intro name rest hhost hname
    subst hhost
    simp [RedirectToHTTPS.do_GET, redirect_host_strips_port name rest hname]
  · intro h
    simp [RedirectToHTTPS.do_GET, redirect_host_no_colon host h]

/-- Concrete run of the C7 theorem, on the spec's own example:
`Host: example.local:8000`, HTTPS port 8443, `GET /foo?x=1` redirects
to `https://example.local:8443/foo?x=1` with status 307. -/
theorem redirect_response_witness :
    (RedirectToHTTPS.do_GET 8443 (some "example.local:8000") "/foo?x=1").status = 307 ∧
    (RedirectToHTTPS.do_GET 8443 (some "example.local:8000") "/foo?x=1").headers =
      [("Location", "https://example.local:8443/foo?x=1")] :=
  ⟨(redirect_response 8443 "example.local:8000" "/foo?x=1").1,
   by rw [(redirect_response 8443 "example.local:8000" "/foo?x=1").2.2.1
       "example.local" "8000" (by decide) (by decide)]; rfl⟩

/-- **C8.** The orchestrator's exit codes: 2 when the resolved root is
missing or not a directory; 3 when certificate provisioning fails; 0
in generate-only mode, which prints the paths and starts no listener;
4 when the HTTPS bind fails; 0 on a full successful run.  The recorded
steps show that each failing check exits before the later stages
run. -/
theorem main_exit_codes (rootExists rootIsDir : Bool) (env : GenEnv)
    (fs : List String) (certDir certName : String) (days : Nat)
    (generateOnly httpsBindOk : Bool) :
    ((rootExists = false ∨ rootIsDir = false) →
      main rootExists rootIsDir env fs certDir certName days generateOnly httpsBindOk =
        { exitCode := 2, steps := [] }) ∧
    (rootExists = true → rootIsDir = true →
      (∀ msg, (ensure_certificate env fs certDir certName days).outcome = .error msg →
        main rootExists rootIsDir env fs certDir certName days generateOnly httpsBindOk =
          { exitCode := 3, steps := [] }) ∧
      (∀ p, (ensure_certificate env fs certDir certName days).outcome = .ok p →
        (generateOnly = true →
          main rootExists rootIsDir env fs certDir certName days generateOnly httpsBindOk =
            { exitCode := 0, steps := [.provisionedCert, .printedCertPaths] }) ∧
        (generateOnly = false → httpsBindOk = false →
          main rootExists rootIsDir env fs certDir certName days generateOnly httpsBindOk =
            { exitCode := 4, steps := [.provisionedCert] }) ∧
        (generateOnly = false → httpsBindOk = true →
          main rootExists rootIsDir env fs certDir certName days generateOnly httpsBindOk =
            { exitCode := 0,
              steps := [.provisionedCert, .boundHTTPS, .startedListeners] }))) := by
  refine ⟨?_, fun hre hrd => ⟨fun msg hmsg => ?_, fun p hp =>
    ⟨fun hgo => ?_, fun hgo hbind => ?_, fun hgo hbind => ?_⟩⟩⟩
  · rintro (h | h) <;> simp [main, h]
  all_goals simp [main, hre, hrd, *]

set_option maxRecDepth 4000 in
/-- Concrete runs of the C8 theorem: one input per exit code. -/
theorem main_exit_codes_witness :
    main false true ⟨true, false, false⟩ [] "d" "localhost" 825 false true =
      { exitCode := 2, steps := [] } ∧
    main true true ⟨false, false, false⟩ [] "d" "localhost" 825 false true =
      { exitCode := 3, steps := [] } ∧
    main true true ⟨true, false, false⟩ [] "d" "localhost" 825 true true =
      { exitCode := 0, steps := [.provisionedCert, .printedCertPaths] } ∧
    main true true ⟨true, false, false⟩ [] "d" "localhost" 825 false false =
      { exitCode := 4, steps := [.provisionedCert] } ∧
    main true true ⟨true, false, false⟩ [] "d" "localhost" 825 false true =
      { exitCode := 0, steps := [.provisionedCert, .boundHTTPS, .startedListeners] } :=
  ⟨(main_exit_codes false true ⟨true, false, false⟩ [] "d" "localhost" 825
      false true).1 (Or.inl rfl),
   ((main_exit_codes true true ⟨false, false, false⟩ [] "d" "localhost" 825
      false true).2 rfl rfl).1 provisioning_error_message (by decide),
   (((main_exit_codes true true ⟨true, false, false⟩ [] "d" "localhost" 825
      true true).2 rfl rfl).2 ("d/localhost.cert.pem", "d/localhost.key.pem")
      (by decide)).1 rfl,
   (((main_exit_codes true true ⟨true, false, false⟩ [] "d" "localhost" 825
      false false).2 rfl rfl).2 ("d/localhost.cert.pem", "d/localhost.key.pem")
      (by decide)).2.1 rfl rfl,
   (((main_exit_codes true true ⟨true, false, false⟩ [] "d" "localhost" 825
      false true).2 rfl rfl).2 ("d/localhost.cert.pem", "d/localhost.key.pem")
      (by decide)).2.2 rfl rfl⟩

/-- **C9.** `ensure_certificate` raises its provisioning error exactly
when the files were not already present and both generation strategies
fail; the raised message is the fixed guidance text, whose characters
contain both dependency names (`cryptography` at offset 86, `OpenSSL`
at offset 133); the strategies are attempted in fixed order with the
native library first; and a failing external-tool invocation is
captured — `generate_self_signed_with_openssl` merely returns `false`
with the filesystem unchanged, never an error of its own. -/
theorem provisioning_error_conditions (env : GenEnv) (fs : List String)
    (certDir certName : String) (days : Nat) :
    ((∃ msg, (ensure_certificate env fs certDir certName days).outcome = .error msg) ↔
      ¬ (cert_file_path certDir certName ∈ fs ∧ key_file_path certDir certName ∈ fs) ∧
        env.cryptographyUsable = false ∧
        (env.opensslOnPath = false ∨ env.opensslSucceeds = false)) ∧
    (∀ msg, (ensure_certificate env fs certDir certName days).outcome = .error msg →
      msg = provisioning_error_message) ∧
    ((provisioning_error_message.data.drop 86).take 12 = "cryptography".data ∧
      (provisioning_error_message.data.drop 133).take 7 = "OpenSSL".data) ∧
    ((ensure_certificate env fs certDir certName days).attempts = [] ∨
      (ensure_certificate env fs certDir certName days).attempts = [.cryptography] ∨
      (ensure_certificate env fs certDir certName days).attempts =
        [.cryptography, .openssl]) ∧
    (env.opensslOnPath = true → env.opensslSucceeds = false →
      ∀ certPath keyPath,
        generate_self_signed_with_openssl env fs certPath keyPath = (false, fs)) := by
  refine ⟨?_, ?_, ⟨by decide, by decide⟩, ?_, ?_⟩
  · by_cases hex : cert_file_path certDir certName ∈ fs ∧
        key_file_path certDir certName ∈ fs
    · simp [ensure_certificate, hex]
    · cases hc : env.cryptographyUsable <;> cases ho : env.opensslOnPath <;>
        cases hs : env.opensslSucceeds <;>
        simp [ensure_certificate, generate_self_signed_with_cryptography,
          generate_self_signed_with_openssl, hex, hc, ho, hs]
  · intro msg hmsg
    by_cases hex : cert_file_path certDir certName ∈ fs ∧
        key_file_path certDir certName ∈ fs
    · simp [ensure_certificate, hex] at hmsg
    · cases hc : env.cryptographyUsable <;> cases ho : env.opensslOnPath <;>
        cases hs : env.opensslSucceeds <;>
        simp_all [ensure_certificate, generate_self_signed_with_cryptography,
          generate_self_signed_with_openssl, hex, hc, ho, hs]
  · by_cases hex : cert_file_path certDir certName ∈ fs ∧
        key_file_path certDir certName ∈ fs
    · simp [ensure_certificate, hex]
    · cases hc : env.cryptographyUsable <;> cases ho : env.opensslOnPath <;>
        cases hs : env.opensslSucceeds <;>
        simp [ensure_certificate, generate_self_signed_with_cryptography,
          generate_self_signed_with_openssl, hex, hc, ho, hs]
  · intro ho hs certPath keyPath
    simp [generate_self_signed_with_openssl, ho, hs]

/-- Concrete run of the C9 theorem: with neither strategy available on
a fresh directory, `ensure_certificate` reports the guidance error. -/
theorem provisioning_error_conditions_witness :
    (∃ msg, (ensure_certificate ⟨false, true, false⟩ [] "d" "localhost" 825).outcome =
      .error msg) ∧
    generate_self_signed_with_openssl ⟨false, true, false⟩ [] "c" "k" = (false, []) :=
  ⟨(provisioning_error_conditions ⟨false, true, false⟩ [] "d" "localhost" 825).1.2
      ⟨by decide, rfl, Or.inr rfl⟩,
   (provisioning_error_conditions ⟨false, true, false⟩ [] "d" "localhost" 825).2.2.2.2
      rfl rfl "c" "k"⟩

/-- **C10.** Noninterference under the wildcard policy: two requests
identical except for the presence or value of the `Origin` header
produce exactly the same emitted headers, and in fact the same full
response, for both `OPTIONS` and `GET`. -/
theorem wildcard_origin_noninterference (fs : SiteFiles) (cfg : ServerConfig)
    (h1 h2 : RequestHeaders) (path : String)
    (hw : cfg.cors_allow_origin = "*")
    (hacrh : h1.access_control_request_headers = h2.access_control_request_headers) :
    end_headers cfg h1 = end_headers cfg h2 ∧
    do_OPTIONS cfg h1 = do_OPTIONS cfg h2 ∧
    do_GET fs cfg h1 path = do_GET fs cfg h2 path := by
  have he : end_headers cfg h1 = end_headers cfg h2 := by
    simp [end_headers, _send_cors_headers, hw, hacrh]
  refine ⟨he, ?_, ?_⟩
  · simp [do_OPTIONS, he]
  · unfold do_GET simple_do_GET
    rw [he]

/-- Concrete run of the C10 theorem: an `Origin`-bearing request and
an `Origin`-free request get identical headers and responses. -/
theorem wildcard_origin_noninterference_witness :
    end_headers ⟨"*", true, false, true, true, true⟩ ⟨some "https://evil.example", none⟩ =
      end_headers ⟨"*", true, false, true, true, true⟩ ⟨none, none⟩ ∧
    do_GET [] ⟨"*", true, false, true, true, true⟩ ⟨some "https://evil.example", none⟩ "/x" =
      do_GET [] ⟨"*", true, false, true, true, true⟩ ⟨none, none⟩ "/x" :=
  ⟨(wildcard_origin_noninterference [] ⟨"*", true, false, true, true, true⟩
      ⟨some "https://evil.example", none⟩ ⟨none, none⟩ "/x" rfl rfl).1,
   (wildcard_origin_noninterference [] ⟨"*", true, false, true, true, true⟩
      ⟨some "https://evil.example", none⟩ ⟨none, none⟩ "/x" rfl rfl).2.2⟩

end SecureStaticServer
